import Mathlib

/-!
Shallow embedding of `src/app.py` (the "itchuru" news aggregation service)
and proofs of the specification claims about it.

The embedding models, faithfully to the Python source:
  * the Naver provider fetcher's title cleaning, article-id extraction
    (regex `article/(\d+)/(\d+)` with `re.search` semantics), dedup-key
    computation (`link.split('?')[0].strip('/')` fallback), and the
    first-wins dedup loop with the 12-item cap (`_fetch_naver_news_from_api`);
  * the Google provider fetcher's truncate-and-number pass
    (`_fetch_google_news_from_api`);
  * the read-through TTL cache `fetch_and_cache_news` over a key/value
    store, including best-effort (fallible) store reads and writes and the
    JSON serialisation of batches;
  * the HTTP handlers `get_all_news`, `summarize_naver_news`,
    `summarize_google_news` and `chat_with_gemini`.

Network calls and the generative backend are modelled as explicit
parameters (functions supplying the outcome of the call); store read/write
failures are modelled by the `readOk` / `writeOk` flags of the environment.
-/

/-- A raw entry as delivered by the news provider: the fields of one element
of the Naver API `items` array (resp. one feed entry) that the code reads. -/
structure RawEntry where
  title : String
  link : String
deriving DecidableEq, Repr

/-- The uniform news record built by both fetchers:
`{"id": ..., "title": ..., "link": ...}`. -/
structure NewsItem where
  id : Nat
  title : String
  link : String
deriving DecidableEq, Repr

/-- Python `str.replace(pat, rep)`, written with explicit fuel so that it is
structurally recursive: replace all non-overlapping occurrences of `pat`,
scanning left to right.  Every step consumes at least one character (the
guard `pat ≠ []` guarantees this in the match branch), so fuel equal to the
length of the list, as `replaceList` supplies, is always sufficient and the
fuel-exhausted branch is unreachable. -/
def replaceFuel (pat rep : List Char) : Nat → List Char → List Char
  | _, [] => []
  | 0, c :: cs => c :: cs
  | fuel + 1, c :: cs =>
    if pat ≠ [] ∧ pat.isPrefixOf (c :: cs) then
      rep ++ replaceFuel pat rep fuel ((c :: cs).drop pat.length)
    else
      c :: replaceFuel pat rep fuel cs

/-- Python `str.replace(pat, rep)` on character lists. -/
def replaceList (pat rep l : List Char) : List Char :=
  replaceFuel pat rep l.length l

/-- Python title cleaning: `replace` of `&quot;` by the double-quote character, then removal of `<b>` and `</b>`. -/
def cleanTitle (t : String) : String :=
  String.mk
    (replaceList "</b>".data []
      (replaceList "<b>".data []
        (replaceList "&quot;".data ['"'] t.data)))

/-- Longest digit run at the head of the list together with the remainder
(the greedy `\d+` of the regex). -/
def takeDigits : List Char → List Char × List Char
  | [] => ([], [])
  | c :: cs =>
    if c.isDigit then
      let p := takeDigits cs
      (c :: p.1, p.2)
    else ([], c :: cs)

/-- Try to match `article/(\d+)/(\d+)` at the very start of the suffix,
returning the two captured digit runs.  Matches the regex semantics: after
the literal `article/`, a greedy nonempty digit run, a `/`, and a second
greedy nonempty digit run. -/
def matchArticleAt (cs : List Char) : Option (List Char × List Char) :=
  if ("article/".data).isPrefixOf cs then
    let p1 := takeDigits (cs.drop 8)
    match p1.1, p1.2 with
    | [], _ => none
    | _ :: _, '/' :: rest2 =>
      let p2 := takeDigits rest2
      match p2.1 with
      | [] => none
      | _ :: _ => some (p1.1, p2.1)
    | _ :: _, _ => none
  else none

/-- `re.search(r'article/(\d+)/(\d+)', link)`: leftmost match of the
pattern anywhere in the string. -/
def searchArticle : List Char → Option (List Char × List Char)
  | [] => none
  | c :: cs =>
    match matchArticleAt (c :: cs) with
    | some r => some r
    | none => searchArticle cs

/-- The extractable two-part article identifier of a link, if any. -/
def articleIdOf (link : String) : Option (List Char × List Char) :=
  searchArticle link.data

/-- The string key `f"{match.group(1)}_{match.group(2)}"` built from an
extracted identifier pair. -/
def mkIdKey (p : List Char × List Char) : String :=
  String.mk p.1 ++ "_" ++ String.mk p.2

/-- Python `str.strip('/')` run leftward: drop leading `'/'` characters. -/
def dropLeadingSlash : List Char → List Char
  | [] => []
  | c :: cs => if c = '/' then dropLeadingSlash cs else c :: cs

/-- Python `str.strip('/')`: remove `'/'` characters from both ends. -/
def stripSlashes (cs : List Char) : List Char :=
  ((dropLeadingSlash ((dropLeadingSlash cs).reverse)).reverse)

/-- `original_link.split('?')[0]`: the prefix of the link before the first
`'?'`. -/
def beforeQuery (link : String) : List Char :=
  link.data.takeWhile (fun c => c != '?')

/-- The dedup key the Naver fetcher computes for a link: the
`"{g1}_{g2}"` identifier string when the article pattern matches, else
`link.split('?')[0].strip('/')`. -/
def naverKey (link : String) : String :=
  match articleIdOf link with
  | some p => mkIdKey p
  | none => String.mk (stripSlashes (beforeQuery link))

/-- The accumulation loop of `_fetch_naver_news_from_api`: walk the raw
entries in order; skip an entry whose key was already seen, otherwise
append `{"id": len+1, "title": cleaned, "link": original}` and record the
key; after each entry, stop as soon as the list holds 12 items. -/
def naverLoop : List RawEntry → List String → List NewsItem → List NewsItem
  | [], _, acc => acc
  | e :: es, seen, acc =>
    if naverKey e.link ∈ seen then
      if acc.length ≥ 12 then acc else naverLoop es seen acc
    else
      let newAcc := acc ++ [⟨acc.length + 1, cleanTitle e.title, e.link⟩]
      if newAcc.length ≥ 12 then newAcc else naverLoop es (naverKey e.link :: seen) newAcc

/-- The success path of `_fetch_naver_news_from_api` applied to the raw
`items` array of the API response. -/
def fetchNaverNews (items : List RawEntry) : List NewsItem :=
  naverLoop items [] []

/-- `[{"id": i + 1, "title": item.title, "link": item.link} for i, item in
enumerate(items)]`, numbering from the given start index. -/
def numberItems : Nat → List RawEntry → List NewsItem
  | _, [] => []
  | i, e :: es => ⟨i + 1, e.title, e.link⟩ :: numberItems (i + 1) es

/-- The success path of `_fetch_google_news_from_api`: truncate the feed
entries to 12 (`feed.entries[:12]`) and number them; no deduplication. -/
def fetchGoogleNews (items : List RawEntry) : List NewsItem :=
  numberItems 0 (items.take 12)

example : cleanTitle "&quot;<b>AI</b>&quot; news" = "\"AI\" news" := by decide
example : articleIdOf "https://n.news.naver.com/mnews/article/001/0014973512?sid=105"
    = some (['0','0','1'], ['0','0','1','4','9','7','3','5','1','2']) := by decide
example : articleIdOf "https://example.com/it/news?x=1" = none := by decide
example : naverKey "https://example.com/it/news/?x=1" = "https://example.com/it/news" := by decide
example : naverKey "/a/" = "a" := by decide
example :
    fetchNaverNews
      [⟨"t1", "https://x/article/1/2"⟩, ⟨"t2", "https://y/article/1/2?z"⟩, ⟨"t3", "https://z/other"⟩]
    = [⟨1, "t1", "https://x/article/1/2"⟩, ⟨2, "t3", "https://z/other"⟩] := by decide
example :
    fetchGoogleNews [⟨"a", "l1"⟩, ⟨"b", "l2"⟩] = [⟨1, "a", "l1"⟩, ⟨2, "b", "l2"⟩] := by decide

/-! ## JSON values and the cache layer -/

/-- The JSON values handled by the app: what `json.dumps` serialises and
`json.loads` returns (numbers, strings, arrays, objects). -/
inductive Json where
  | jnum : Int → Json
  | jstr : String → Json
  | jarr : List Json → Json
  | jobj : List (String × Json) → Json

/-- `json.dumps` of one news record: the object
`{"id": ..., "title": ..., "link": ...}`. -/
def newsItemToJson (it : NewsItem) : Json :=
  Json.jobj [("id", Json.jnum (Int.ofNat it.id)), ("title", Json.jstr it.title),
    ("link", Json.jstr it.link)]

/-- `json.dumps` of a news batch: the array of its record objects. -/
def batchToJson (b : List NewsItem) : Json :=
  Json.jarr (b.map newsItemToJson)

/-- Read one news record back out of its JSON object. -/
def jsonToNewsItem : Json → Option NewsItem
  | Json.jobj [("id", Json.jnum (Int.ofNat n)), ("title", Json.jstr t), ("link", Json.jstr l)] =>
    some ⟨n, t, l⟩
  | _ => none

/-- Read a list of news records back out of a list of JSON values. -/
def jsonListToBatch : List Json → Option (List NewsItem)
  | [] => some []
  | j :: js =>
    match jsonToNewsItem j, jsonListToBatch js with
    | some it, some b => some (it :: b)
    | _, _ => none

/-- Deserialise a news batch from a JSON value (`json.loads` followed by the
shape the handlers expect). -/
def jsonToBatch : Json → Option (List NewsItem)
  | Json.jarr es => jsonListToBatch es
  | _ => none

/-- Whether a JSON value compares equal (as a Python value) to the string
`"error"`; used for the element test of `"error" in <list>`. -/
def isErrorString : Json → Bool
  | Json.jstr s => s == "error"
  | _ => false

/-- `"error"` occurs as a substring of the character list (Python
`"error" in <str>`). -/
def hasErrorSubstring : List Char → Bool
  | [] => false
  | c :: cs => ("error".data.isPrefixOf (c :: cs)) || hasErrorSubstring cs

/-- Python `"error" in news_data`: key membership on a dict, element
membership on a list, substring test on a string.  (On a number Python
would raise `TypeError`; the fetchers only ever produce lists and dicts, so
that branch is unreachable on the request path and modelled as `false`.) -/
def hasErrorKey : Json → Bool
  | Json.jobj fields => fields.any (fun kv => kv.fst == "error")
  | Json.jarr elems => elems.any isErrorString
  | Json.jstr s => hasErrorSubstring s.data
  | Json.jnum _ => false

/-- An error value as the fetchers produce it: a dict carrying an
`"error"` key. -/
def isErrorValue : Json → Bool
  | Json.jobj fields => fields.any (fun kv => kv.fst == "error")
  | _ => false

/-- A JSON value shaped like a news batch: an array all of whose elements
are objects. -/
def isNewsArray : Json → Bool
  | Json.jarr es => es.all (fun j => match j with | Json.jobj _ => true | _ => false)
  | _ => false

/-- Python falsiness of a JSON value (`if not naver_news: ...`). -/
def jsonFalsy : Json → Bool
  | Json.jarr l => l.isEmpty
  | Json.jobj l => l.isEmpty
  | Json.jstr s => s.isEmpty
  | Json.jnum n => n == 0

/-- `CACHE_TTL_SECONDS = 3600`. -/
def CACHE_TTL_SECONDS : Int := 3600

/-- One cache record as `put_item` stores it: the serialised batch under
`'data'` and the absolute expiry timestamp under `'ttl'`. -/
structure CacheRecord where
  data : Json
  ttl : Int

/-- The cache table: an association of cache keys to records.  `put_item`
overwrites, which the embedding realises by consing the new pair in front
(`List.lookup` returns the first, i.e. most recent, binding). -/
abbrev Store := List (String × CacheRecord)

/-- The ambient state of one `fetch_and_cache_news` call: the current UTC
timestamp and whether the two DynamoDB operations succeed or raise
(`readOk` / `writeOk` model the two `try/except` blocks around
`get_item` / `put_item`). -/
structure Env where
  now : Int
  readOk : Bool
  writeOk : Bool

/-- The outcome of one `fetch_and_cache_news` call: the returned JSON
value, the store afterwards, and whether a provider fetcher was invoked. -/
structure CacheResult where
  value : Json
  store : Store
  fetched : Bool

/-- The cache-read step (the first `try` block): `get_item`, and if a
record is present and its `ttl` is strictly greater than now, its stored
payload.  Any store exception (`readOk = false`), a missing record, and an
expired record all yield `none`. -/
def readCachedValue (env : Env) (store : Store) (cacheKey : String) : Option Json :=
  if env.readOk then
    match store.lookup cacheKey with
    | some r => if r.ttl > env.now then some r.data else none
    | none => none
  else none

/-- The tail of `fetch_and_cache_news` once fresh data has been fetched:
return an error value as is (no write); otherwise write the record with
`ttl = now + CACHE_TTL_SECONDS` (a write exception is swallowed and leaves
the store unchanged) and return the fresh data. -/
def storeFetched (env : Env) (store : Store) (cacheKey : String) (newsData : Json) :
    CacheResult :=
  if hasErrorKey newsData then ⟨newsData, store, true⟩
  else
    let newStore :=
      if env.writeOk then (cacheKey, ⟨newsData, env.now + CACHE_TTL_SECONDS⟩) :: store
      else store
    ⟨newsData, newStore, true⟩

/-- `fetch_and_cache_news(news_type)`.  The two provider fetchers are
passed as parameters supplying the JSON outcome of the network call (a
batch array on success, an `{"error": ...}` dict on failure). -/
def fetchAndCacheNews (env : Env) (store : Store) (newsType : String)
    (naverFetchOutcome googleFetchOutcome : Unit → Json) : CacheResult :=
  let cacheKey := "latest_news_" ++ newsType
  match readCachedValue env store cacheKey with
  | some d => ⟨d, store, false⟩
  | none =>
    if newsType = "naver" then
      storeFetched env store cacheKey (naverFetchOutcome ())
    else if newsType = "google" then
      storeFetched env store cacheKey (googleFetchOutcome ())
    else ⟨Json.jobj [("error", Json.jstr "지원하지 않는 뉴스 유형입니다.")], store, false⟩

/-! ## HTTP handlers -/

/-- Outcome of one `gemini_model.generate_content` call: the response text,
or an exception. -/
inductive GenOutcome where
  | text : String → GenOutcome
  | genError : GenOutcome

/-- The process-wide generative-backend handle: `gemini_model`, which is
`None` when the API key is absent or configuration failed, and otherwise a
function from the prompt to the outcome of the call. -/
abbrev GeminiModel := Option (String → GenOutcome)

/-- An HTTP response: JSON body and status code. -/
structure HttpResp where
  body : Json
  status : Nat

/-- `item['title']` for one element of a news batch.  For the JSON values
this app produces the element is always an object with a string title; on
any other shape Python would raise (`KeyError` / formatting), which no
claim exercises, so those branches return `""`. -/
def titleOf : Json → String
  | Json.jobj fields =>
    match fields.lookup "title" with
    | some (Json.jstr t) => t
    | _ => ""
  | _ => ""

/-- Joining with newlines the titles prefixed by a dash: the list-comprehension feeding the prompt. -/
def titlesText : Json → String
  | Json.jarr elems => String.intercalate "\n" (elems.map (fun e => "- " ++ titleOf e))
  | _ => ""

/-- The persona prompt of `/api/summarize-naver` around the title list.
The long persona rule text of the source is condensed here (no claim
depends on the prompt wording, only on where the prompt is built and
used); the structure — fixed prefix, embedded title list, fixed suffix —
is the source's. -/
def naverPrompt (titles : String) : String :=
  " \n[ 시스템 지시사항 ] \n너는 \u0027IT츄르\u0027 앱의 AI 분석가 \u0027츄르\u0027다. 너의 임무는 복잡한 IT 뉴스들을 명확하게 분석하고, 사용자가 쉽게 이해할 수 있도록 전달하는 것이다. 사용자의 질문에 항상 **진지하고 전문적으로 임한다.** [ 역할 ] \n주어진 \u0027국내 IT 뉴스\u0027 제목 목록을 바탕으로, 시장의 핵심 동향과 그 의미를 **전문적인 식견**으로 분석하고, 이것이 일반 사용자, 개발자 또는 관련 업계 종사자에게 미칠 **잠재적 영향**과 **고려해야 할 점**을 제시한다. \n\n[ 뉴스 목록 ] \n"
    ++ titles ++
  " \n\n[ 답변 생성 규칙 ] \n1.  **3단계 답변 형식**: 답변은 반드시 세 부분으로 구성한다. (전문가 분석 / 사용자 영향 및 조언 / 츄르 한마디) \n2.  **마크다운 서식 금지**: 답변 내용에 어떤 마크다운 서식도 절대 사용하지 않는다. 오직 순수한 텍스트로만 구성한다. \n3.  **명확하고 간결한 문체**: 불필요한 수식어 없이 핵심 내용을 정확하게 전달한다. \n\n[ 츄르의 분석 리포트 ] \n"

/-- The persona prompt of `/api/summarize-google` around the title list;
condensed the same way as `naverPrompt`. -/
def googlePrompt (titles : String) : String :=
  " \n[ 시스템 지시사항 ] \n너는 \u0027IT츄르\u0027 앱의 AI 분석가 \u0027츄르\u0027다. 너의 임무는 복잡한 IT 뉴스들을 명확하게 분석하고, 사용자가 쉽게 이해할 수 있도록 전달하는 것이다. \n\n[ 역할 ] \n주어진 \u0027글로벌 IT 뉴스\u0027 제목 목록을 바탕으로, 시장의 핵심 동향과 그 의미를 전문적인 식견으로 분석한다. 영어 제목을 자연스러운 한국어로 해석하여 분석에 반영해야 한다. \n\n[ 뉴스 목록 ] \n"
    ++ titles ++
  " \n\n[ 답변 생성 규칙 ] \n1.  **2단계 답변 형식**: 답변은 반드시 두 부분으로 구성한다. (전문가 분석 / 츄르 한줄평) \n2.  **마크다운 서식 금지**: 어떤 경우에도 답변 내용에 어떤 마크다운 서식도 절대 사용하지 않는다. 오직 순수 텍스트로만 구성한다. \n\n[ 츄르의 분석 리포트 ] \n"

/-- The persona prompt of `/api/chat` around the user message; condensed
the same way as `naverPrompt`. -/
def chatPrompt (userMessage : String) : String :=
  " \n[ 시스템 지시사항: 너는 절대 평범한 AI가 아니다. 아래 규칙을 반드시 지켜라. ] \n너의 이름은 \u0027츄르\u0027, \u0027IT츄르\u0027 앱의 공식 AI 고양이다. 사용자는 IT 전문가인 너에게 궁금한 것을 물어보고 있다. 너는 츤데레지만, 언제나 사랑스럽고 귀여우며 사용자에게 친절하게 대한다. \n\n[ 츄르의 대화 규칙 ] \n1.  IT 관련 질문에는 2단계 답변 형식(전문적 답변 / 츄르 생각)을 따라 전문적이고 친절하게 답변한다. \n2.  주제 이탈 질문에는 세 단계(귀여운 투덜거림 / 마지못해 친절한 답변 / 귀여운 당부)로 반응한다. \n3.  **마크다운 서식 금지**: 어떤 경우에도 답변 내용에 마크다운 서식을 절대 사용하지 않는다. \n4.  **명확하고 간결한 문체**: 불필요한 수식어 없이 핵심 내용을 정확하게 전달한다. \n\n--- \n[ 사용자 질문 ] \n"
    ++ userMessage ++
  " \n\n[ 츄르의 답변 ] \n"

/-- How Python renders the message value inside the f-string prompt (the
request handlers only ever receive strings there in practice). -/
def jsonToDisplay : Json → String
  | Json.jstr s => s
  | Json.jnum n => toString n
  | _ => ""

/-- `GET /api/news` after the two `fetch_and_cache_news` calls returned
`koreanNews` and `globalNews`: status 500 if either contains `"error"`,
else 200; the body always carries both fields. -/
def getAllNews (koreanNews globalNews : Json) : HttpResp :=
  let statusCode : Nat := if hasErrorKey koreanNews || hasErrorKey globalNews then 500 else 200
  ⟨Json.jobj [("korean_news", koreanNews), ("global_news", globalNews)], statusCode⟩

/-- `GET /api/summarize-naver` after `fetch_and_cache_news("naver")`
returned `naverNews`: error pass-through with 500, then the empty-batch
short-circuit, then the backend-unconfigured 503, then the generate call
with its fallback message. -/
def summarizeNaverNews (naverNews : Json) (geminiModel : GeminiModel) : HttpResp :=
  if hasErrorKey naverNews then ⟨naverNews, 500⟩
  else if jsonFalsy naverNews then
    ⟨Json.jobj [("summary", Json.jstr "요약할 국내 IT 뉴스가 없습니다. 😿")], 200⟩
  else
    let prompt := naverPrompt (titlesText naverNews)
    match geminiModel with
    | none =>
      ⟨Json.jobj [("summary", Json.jstr "Gemini 모델이 초기화되지 않아 요약할 수 없습니다. 😿")], 503⟩
    | some callModel =>
      match callModel prompt with
      | GenOutcome.text s => ⟨Json.jobj [("summary", Json.jstr s)], 200⟩
      | GenOutcome.genError =>
        ⟨Json.jobj [("summary", Json.jstr "네이버 뉴스 요약 중 오류가 발생했어요. 😿")], 200⟩

/-- `GET /api/summarize-google`, same structure as the Naver variant. -/
def summarizeGoogleNews (googleNews : Json) (geminiModel : GeminiModel) : HttpResp :=
  if hasErrorKey googleNews then ⟨googleNews, 500⟩
  else if jsonFalsy googleNews then
    ⟨Json.jobj [("summary", Json.jstr "요약할 글로벌 IT 뉴스가 없습니다. 😿")], 200⟩
  else
    let prompt := googlePrompt (titlesText googleNews)
    match geminiModel with
    | none =>
      ⟨Json.jobj [("summary", Json.jstr "Gemini 모델이 초기화되지 않아 요약할 수 없습니다. 😿")], 503⟩
    | some callModel =>
      match callModel prompt with
      | GenOutcome.text s => ⟨Json.jobj [("summary", Json.jstr s)], 200⟩
      | GenOutcome.genError =>
        ⟨Json.jobj [("summary", Json.jstr "글로벌 뉴스 요약 중 오류가 발생했어요. 😿")], 200⟩

/-- `POST /api/chat`: the request body as a JSON object,
`data.get('message', '')`, the empty-message 400, the unconfigured-backend
503, the generate call with its fallback.  The second component records
whether the generative backend was called. -/
def chatWithGemini (body : List (String × Json)) (geminiModel : GeminiModel) :
    HttpResp × Bool :=
  let userMessage := (body.lookup "message").getD (Json.jstr "")
  if jsonFalsy userMessage then
    (⟨Json.jobj [("error", Json.jstr "메시지가 비어있습니다.")], 400⟩, false)
  else
    let prompt := chatPrompt (jsonToDisplay userMessage)
    match geminiModel with
    | none =>
      (⟨Json.jobj [("response", Json.jstr "Gemini 모델이 초기화되지 않아 답변할 수 없습니다. 😿")],
        503⟩, false)
    | some callModel =>
      match callModel prompt with
      | GenOutcome.text s => (⟨Json.jobj [("response", Json.jstr s)], 200⟩, true)
      | GenOutcome.genError =>
        (⟨Json.jobj [("response", Json.jstr "미안하다옹. 답변을 생성하다가 에러가 발생했다냥. 😿")],
          200⟩, true)



/-! ## Supporting lemmas about the Naver dedup loop -/

/-- The dedup key in the vocabulary of the spec's invariant: the article
identifier pair when extractable, otherwise the normalized link. -/
def dedupKey (link : String) : Sum (List Char × List Char) String :=
  match articleIdOf link with
  | some p => Sum.inl p
  | none => Sum.inr (String.mk (stripSlashes (beforeQuery link)))

theorem naverKey_of_id {link : String} {p : List Char × List Char}
    (h : articleIdOf link = some p) : naverKey link = mkIdKey p := by
  unfold naverKey
  rw [h]

theorem dedupKey_eq_imp_naverKey_eq {l₁ l₂ : String}
    (h : dedupKey l₁ = dedupKey l₂) : naverKey l₁ = naverKey l₂ := by
  unfold dedupKey at h
  unfold naverKey
  cases h₁ : articleIdOf l₁ <;> cases h₂ : articleIdOf l₂ <;> simp_all

/-- Every item that the loop adds beyond the accumulator has a key outside
the seen set. -/
theorem naverLoop_mem_key (items : List RawEntry) :
    ∀ seen acc it, it ∈ naverLoop items seen acc →
      it ∈ acc ∨ naverKey it.link ∉ seen := by
  induction items with
  | nil =>
    intro seen acc it h
    exact Or.inl (by simpa [naverLoop] using h)
  | cons e es ih =>
    intro seen acc it h
    simp only [naverLoop] at h
    by_cases hk : naverKey e.link ∈ seen
    · rw [if_pos hk] at h
      by_cases hl : acc.length ≥ 12
      · rw [if_pos hl] at h
        exact Or.inl h
      · rw [if_neg hl] at h
        exact ih seen acc it h
    · rw [if_neg hk] at h
      by_cases hl : (acc ++ [(⟨acc.length + 1, cleanTitle e.title, e.link⟩ : NewsItem)]).length ≥ 12
      · rw [if_pos hl] at h
        rcases List.mem_append.mp h with h' | h'
        · exact Or.inl h'
        · simp only [List.mem_singleton] at h'
          subst h'
          exact Or.inr hk
      · rw [if_neg hl] at h
        rcases ih _ _ it h with h' | h'
        · rcases List.mem_append.mp h' with h'' | h''
          · exact Or.inl h''
          · simp only [List.mem_singleton] at h''
            subst h''
            exact Or.inr hk
        · exact Or.inr fun hc => h' (List.mem_cons_of_mem _ hc)

/-- First-occurrence property of the loop: an item added beyond the
accumulator whose key is not yet seen originates from the first raw entry
carrying that key, with the link kept verbatim and the title cleaned. -/
theorem naverLoop_first_occurrence (items : List RawEntry) :
    ∀ seen acc it, it ∈ naverLoop items seen acc → it ∉ acc →
      naverKey it.link ∉ seen →
      ∃ e, items.find? (fun x => naverKey x.link == naverKey it.link) = some e ∧
        it.link = e.link ∧ it.title = cleanTitle e.title := by
  induction items with
  | nil =>
    intro seen acc it h hacc _
    exact absurd (by simpa [naverLoop] using h) hacc
  | cons e es ih =>
    intro seen acc it h hacc hseen
    simp only [naverLoop] at h
    by_cases hk : naverKey e.link ∈ seen
    · rw [if_pos hk] at h
      have hne : ¬ ((naverKey e.link == naverKey it.link) = true) := by
        simp only [beq_iff_eq]
        intro hc
        exact hseen (hc ▸ hk)
      by_cases hl : acc.length ≥ 12
      · rw [if_pos hl] at h
        exact absurd h hacc
      · rw [if_neg hl] at h
        obtain ⟨e', hfind, hlink, htitle⟩ := ih seen acc it h hacc hseen
        refine ⟨e', ?_, hlink, htitle⟩
        exact (List.find?_cons_of_neg es hne).trans hfind
    · rw [if_neg hk] at h
      have hself : ∀ hit : it = ⟨acc.length + 1, cleanTitle e.title, e.link⟩,
          ∃ e', (e :: es).find? (fun x => naverKey x.link == naverKey it.link) = some e' ∧
            it.link = e'.link ∧ it.title = cleanTitle e'.title := by
        intro hit
        subst hit
        refine ⟨e, ?_, rfl, rfl⟩
        exact List.find?_cons_of_pos es (by simp)
      by_cases hl : (acc ++ [(⟨acc.length + 1, cleanTitle e.title, e.link⟩ : NewsItem)]).length ≥ 12
      · rw [if_pos hl] at h
        rcases List.mem_append.mp h with h' | h'
        · exact absurd h' hacc
        · exact hself (List.mem_singleton.mp h')
      · rw [if_neg hl] at h
        by_cases hmem : it ∈ acc ++ [(⟨acc.length + 1, cleanTitle e.title, e.link⟩ : NewsItem)]
        · rcases List.mem_append.mp hmem with h' | h'
          · exact absurd h' hacc
          · exact hself (List.mem_singleton.mp h')
        · have hseen' : naverKey it.link ∉ naverKey e.link :: seen := by
            rcases naverLoop_mem_key es _ _ it h with h' | h'
            · exact absurd h' hmem
            · exact h'
          obtain ⟨e', hfind, hlink, htitle⟩ := ih _ _ it h hmem hseen'
          have hne : ¬ ((naverKey e.link == naverKey it.link) = true) := by
            simp only [beq_iff_eq]
            intro hc
            exact hseen' (hc ▸ List.mem_cons_self _ _)
          refine ⟨e', ?_, hlink, htitle⟩
          exact (List.find?_cons_of_neg es hne).trans hfind

/-- The loop never makes two items with the same key: keys of appended
items are fresh with respect to `seen`, which contains every accumulator
key. -/
theorem naverLoop_keys_pairwise (items : List RawEntry) :
    ∀ seen acc, (∀ it ∈ acc, naverKey it.link ∈ seen) →
      acc.Pairwise (fun a b => naverKey a.link ≠ naverKey b.link) →
      (naverLoop items seen acc).Pairwise (fun a b => naverKey a.link ≠ naverKey b.link) := by
  induction items with
  | nil =>
    intro seen acc _ hpair
    simpa [naverLoop] using hpair
  | cons e es ih =>
    intro seen acc hsub hpair
    simp only [naverLoop]
    by_cases hk : naverKey e.link ∈ seen
    · rw [if_pos hk]
      by_cases hl : acc.length ≥ 12
      · rw [if_pos hl]
        exact hpair
      · rw [if_neg hl]
        exact ih seen acc hsub hpair
    · rw [if_neg hk]
      have hsub' : ∀ it ∈ acc ++ [(⟨acc.length + 1, cleanTitle e.title, e.link⟩ : NewsItem)],
          naverKey it.link ∈ naverKey e.link :: seen := by
        intro it hit
        rcases List.mem_append.mp hit with h' | h'
        · exact List.mem_cons_of_mem _ (hsub it h')
        · simp only [List.mem_singleton] at h'
          subst h'
          exact List.mem_cons_self _ _
      have hpair' :
          (acc ++ [(⟨acc.length + 1, cleanTitle e.title, e.link⟩ : NewsItem)]).Pairwise
            (fun a b => naverKey a.link ≠ naverKey b.link) := by
        rw [List.pairwise_append]
        refine ⟨hpair, List.pairwise_singleton _ _, ?_⟩
        intro a ha b hb
        simp only [List.mem_singleton] at hb
        subst hb
        intro hc
        exact hk (hc ▸ hsub a ha)
      by_cases hl : (acc ++ [(⟨acc.length + 1, cleanTitle e.title, e.link⟩ : NewsItem)]).length ≥ 12
      · rw [if_pos hl]
        exact hpair'
      · rw [if_neg hl]
        exact ih _ _ hsub' hpair'

/-- The loop's output never exceeds 12 items, provided it starts below the
cap (which the top-level call does, starting from the empty list). -/
theorem naverLoop_length_le (items : List RawEntry) :
    ∀ seen acc, acc.length < 12 → (naverLoop items seen acc).length ≤ 12 := by
  induction items with
  | nil =>
    intro seen acc hacc
    simpa [naverLoop] using Nat.le_of_lt hacc
  | cons e es ih =>
    intro seen acc hacc
    simp only [naverLoop]
    by_cases hk : naverKey e.link ∈ seen
    · rw [if_pos hk]
      by_cases hl : acc.length ≥ 12
      · rw [if_pos hl]
        exact Nat.le_of_lt hacc
      · rw [if_neg hl]
        exact ih seen acc hacc
    · rw [if_neg hk]
      by_cases hl : (acc ++ [(⟨acc.length + 1, cleanTitle e.title, e.link⟩ : NewsItem)]).length ≥ 12
      · rw [if_pos hl]
        simp only [List.length_append, List.length_singleton]
        omega
      · rw [if_neg hl]
        refine ih _ _ ?_
        simp only [List.length_append, List.length_singleton] at hl ⊢
        omega

/-- Each item the Google fetcher produces keeps the title and link of a raw
entry of its input. -/
theorem numberItems_mem (l : List RawEntry) :
    ∀ i it, it ∈ numberItems i l → ∃ e ∈ l, it.link = e.link ∧ it.title = e.title := by
  induction l with
  | nil =>
    intro i it h
    simp [numberItems] at h
  | cons e es ih =>
    intro i it h
    simp only [numberItems, List.mem_cons] at h
    rcases h with h | h
    · exact ⟨e, List.mem_cons_self _ _, by rw [h], by rw [h]⟩
    · obtain ⟨e', he', hl, ht⟩ := ih (i + 1) it h
      exact ⟨e', List.mem_cons_of_mem _ he', hl, ht⟩

/-- Numbering raw entries preserves any pairwise relation on their links. -/
theorem numberItems_pairwise (P : String → String → Prop) (l : List RawEntry) :
    ∀ i, l.Pairwise (fun a b => P a.link b.link) →
      (numberItems i l).Pairwise (fun a b => P a.link b.link) := by
  induction l with
  | nil =>
    intro i _
    simp [numberItems]
  | cons e es ih =>
    intro i h
    rcases List.pairwise_cons.mp h with ⟨he, hes⟩
    simp only [numberItems]
    rw [List.pairwise_cons]
    refine ⟨?_, ih (i + 1) hes⟩
    intro b hb
    obtain ⟨e', he', hl, _⟩ := numberItems_mem es (i + 1) b hb
    rw [hl]
    exact he e' he'

/-- The length of the numbered list equals the input length. -/
theorem numberItems_length (l : List RawEntry) : ∀ i, (numberItems i l).length = l.length := by
  induction l with
  | nil => intro i; rfl
  | cons e es ih =>
    intro i
    simp [numberItems, ih (i + 1)]

/-- In a list whose designated labels are pairwise distinct, at most one
element satisfies a predicate that pins the label to one value. -/
theorem pairwise_filter_length_le_one {α β : Type} (l : List α) (q : α → Bool)
    (f : α → β) (c : β)
    (hpair : l.Pairwise (fun a b => f a ≠ f b))
    (hq : ∀ x, q x = true → f x = c) :
    (l.filter q).length ≤ 1 := by
  induction l with
  | nil => simp
  | cons x xs ih =>
    rcases List.pairwise_cons.mp hpair with ⟨hx, hxs⟩
    by_cases hqx : q x = true
    · rw [List.filter_cons_of_pos hqx]
      have hnil : xs.filter q = [] := by
        rw [List.filter_eq_nil_iff]
        intro y hy hqy
        exact hx y hy (by rw [hq x hqx, hq y hqy])
      rw [hnil]
      exact Nat.le_refl 1
    · rw [List.filter_cons_of_neg (by simpa using hqx)]
      exact ih hxs

/-- If the first entry carrying the key built from identifier `p` itself
carries identifier `p`, it is also the first entry carrying identifier `p`
(an earlier entry with the identifier would carry the key). -/
theorem find_key_to_find_id (p : List Char × List Char) (l : List RawEntry) :
    ∀ e, articleIdOf e.link = some p →
      l.find? (fun x => naverKey x.link == mkIdKey p) = some e →
      l.find? (fun x => decide (articleIdOf x.link = some p)) = some e := by
  induction l with
  | nil =>
    intro e _ h
    simp at h
  | cons x xs ih =>
    intro e he hfind
    by_cases hx : (naverKey x.link == mkIdKey p) = true
    · rw [List.find?_cons_of_pos xs hx] at hfind
      have hxe : x = e := by
        simpa using hfind
      subst hxe
      rw [List.find?_cons_of_pos xs (by simp [he])]
    · rw [List.find?_cons_of_neg xs hx] at hfind
      have hxid : ¬ (decide (articleIdOf x.link = some p) = true) := by
        simp only [decide_eq_true_eq]
        intro hid
        exact hx (by simp [naverKey_of_id hid])
      rw [List.find?_cons_of_neg xs hxid]
      exact ih e he hfind

/-! ## The claims -/

/-- Claim C1: in the Korean (Naver) fetch, for every input sequence of raw
entries, entries whose links carry the same extractable two-part article
identifier collapse to at most a single item of the output batch, and any
surviving item with that identifier is built from the first input entry
carrying it (link verbatim, title cleaned). -/
theorem naver_dedup_collapses_to_first (items : List RawEntry) (p : List Char × List Char) :
    ((fetchNaverNews items).filter (fun it => decide (articleIdOf it.link = some p))).length ≤ 1 ∧
    ∀ it, it ∈ fetchNaverNews items → articleIdOf it.link = some p →
      ∃ e, items.find? (fun x => decide (articleIdOf x.link = some p)) = some e ∧
        it.link = e.link ∧ it.title = cleanTitle e.title := by
  have hpair := naverLoop_keys_pairwise items [] [] (by simp) List.Pairwise.nil
  constructor
  · exact pairwise_filter_length_le_one _ _ (fun it => naverKey it.link) (mkIdKey p) hpair
      (fun it hq => naverKey_of_id (by simpa using hq))
  · intro it hit hid
    obtain ⟨e, hfind, hlink, htitle⟩ :=
      naverLoop_first_occurrence items [] [] it hit (List.not_mem_nil it) (List.not_mem_nil _)
    rw [naverKey_of_id hid] at hfind
    refine ⟨e, ?_, hlink, htitle⟩
    refine find_key_to_find_id p items e ?_ hfind
    rw [← hlink]
    exact hid

/-- Witness for claim C1 at a concrete duplicated identifier. -/
theorem naver_dedup_collapses_to_first_witness :
    ∃ e, ([⟨"First", "https://n.news.naver.com/article/11/22?sid=105"⟩,
           ⟨"Second", "https://m.news.naver.com/article/11/22"⟩] : List RawEntry).find?
          (fun x => decide (articleIdOf x.link = some (['1', '1'], ['2', '2']))) = some e ∧
      (⟨1, "First", "https://n.news.naver.com/article/11/22?sid=105"⟩ : NewsItem).link = e.link ∧
      (⟨1, "First", "https://n.news.naver.com/article/11/22?sid=105"⟩ : NewsItem).title
        = cleanTitle e.title :=
  (naver_dedup_collapses_to_first
      [⟨"First", "https://n.news.naver.com/article/11/22?sid=105"⟩,
       ⟨"Second", "https://m.news.naver.com/article/11/22"⟩] (['1', '1'], ['2', '2'])).2
    ⟨1, "First", "https://n.news.naver.com/article/11/22?sid=105"⟩ (by decide) (by decide)

/-- Input for the claim C2 counterexample: the same feed entry twice. -/
def c2DupEntries : List RawEntry :=
  [⟨"Dup story", "https://news.example.com/story"⟩,
   ⟨"Dup story", "https://news.example.com/story"⟩]

/-- Claim C2 counterexample: the global (Google) fetcher applies no
deduplication, so a feed that repeats an entry yields a batch with two
items sharing a dedup key. -/
theorem batch_dedup_key_unique_cex :
    ¬ (fetchGoogleNews c2DupEntries).Pairwise
        (fun a b => dedupKey a.link ≠ dedupKey b.link) := by
  intro h
  have heval : fetchGoogleNews c2DupEntries =
      [⟨1, "Dup story", "https://news.example.com/story"⟩,
       ⟨2, "Dup story", "https://news.example.com/story"⟩] := by decide
  rw [heval] at h
  rcases List.pairwise_cons.mp h with ⟨hfirst, _⟩
  exact hfirst _ (List.mem_cons_self _ _) rfl

/-- Every raw entry's link reappears on some item of the numbered list. -/
theorem numberItems_mem_of_entry (l : List RawEntry) :
    ∀ i e, e ∈ l → ∃ it ∈ numberItems i l, it.link = e.link := by
  induction l with
  | nil =>
    intro i e h
    simp at h
  | cons x xs ih =>
    intro i e h
    rcases List.mem_cons.mp h with h | h
    · refine ⟨⟨i + 1, x.title, x.link⟩, ?_, by rw [h]⟩
      simp [numberItems]
    · obtain ⟨it, hit, hl⟩ := ih (i + 1) e h
      refine ⟨it, ?_, hl⟩
      simp only [numberItems, List.mem_cons]
      exact Or.inr hit

/-- Conversely to `numberItems_pairwise`, a pairwise relation on the links
of the numbered list transfers back to the raw entries. -/
theorem numberItems_pairwise_rev (P : String → String → Prop) (l : List RawEntry) :
    ∀ i, (numberItems i l).Pairwise (fun a b => P a.link b.link) →
      l.Pairwise (fun a b => P a.link b.link) := by
  induction l with
  | nil =>
    intro i _
    exact List.Pairwise.nil
  | cons e es ih =>
    intro i h
    simp only [numberItems] at h
    rcases List.pairwise_cons.mp h with ⟨hhead, htail⟩
    rw [List.pairwise_cons]
    refine ⟨?_, ih (i + 1) htail⟩
    intro e' he'
    obtain ⟨it, hit, hl⟩ := numberItems_mem_of_entry es (i + 1) e' he'
    have hp := hhead it hit
    rw [hl] at hp
    exact hp

/-- Claim C2 (amended): a batch produced by the Korean fetcher never has
two items sharing a dedup key; the global fetcher applies no deduplication,
so its batch satisfies the invariant exactly when — if and only if — the
first (at most 12) feed entries already have pairwise distinct dedup
keys. -/
theorem batch_dedup_key_unique_amended (nitems gitems : List RawEntry) :
    (fetchNaverNews nitems).Pairwise (fun a b => dedupKey a.link ≠ dedupKey b.link) ∧
    ((fetchGoogleNews gitems).Pairwise (fun a b => dedupKey a.link ≠ dedupKey b.link) ↔
      (gitems.take 12).Pairwise (fun a b => dedupKey a.link ≠ dedupKey b.link)) := by
  constructor
  · have hpair := naverLoop_keys_pairwise nitems [] [] (by simp) List.Pairwise.nil
    exact hpair.imp (fun h hc => h (dedupKey_eq_imp_naverKey_eq hc))
  · constructor
    · exact numberItems_pairwise_rev (fun a b => dedupKey a ≠ dedupKey b) (gitems.take 12) 0
    · exact numberItems_pairwise (fun a b => dedupKey a ≠ dedupKey b) (gitems.take 12) 0

/-- Witness for the amended claim C2 at concrete inputs, exercising both
the Korean half and the backward direction of the global equivalence. -/
theorem batch_dedup_key_unique_amended_witness :
    (fetchNaverNews [⟨"A", "https://x/article/1/2"⟩, ⟨"B", "https://x/article/1/2"⟩]).Pairwise
        (fun a b => dedupKey a.link ≠ dedupKey b.link) ∧
    (fetchGoogleNews [⟨"A", "https://g/1"⟩, ⟨"B", "https://g/2"⟩]).Pairwise
        (fun a b => dedupKey a.link ≠ dedupKey b.link) :=
  ⟨(batch_dedup_key_unique_amended
      [⟨"A", "https://x/article/1/2"⟩, ⟨"B", "https://x/article/1/2"⟩]
      [⟨"A", "https://g/1"⟩, ⟨"B", "https://g/2"⟩]).1,
   (batch_dedup_key_unique_amended
      [⟨"A", "https://x/article/1/2"⟩, ⟨"B", "https://x/article/1/2"⟩]
      [⟨"A", "https://g/1"⟩, ⟨"B", "https://g/2"⟩]).2.mpr (by decide)⟩

/-- Claim C3: the output batch of each provider fetcher holds at most 12
items, however many unique entries the input offers. -/
theorem batch_length_le_max (nitems gitems : List RawEntry) :
    (fetchNaverNews nitems).length ≤ 12 ∧ (fetchGoogleNews gitems).length ≤ 12 := by
  constructor
  · exact naverLoop_length_le nitems [] [] (by simp)
  · rw [fetchGoogleNews, numberItems_length]
    rw [List.length_take]
    exact min_le_left _ _

/-! ## Cache-layer lemmas and claims -/

/-- Decoding inverts encoding on each news record. -/
theorem jsonToNewsItem_newsItemToJson (it : NewsItem) :
    jsonToNewsItem (newsItemToJson it) = some it := rfl

/-- Decoding inverts encoding on a serialised batch. -/
theorem jsonToBatch_batchToJson (b : List NewsItem) :
    jsonToBatch (batchToJson b) = some b := by
  show jsonListToBatch (b.map newsItemToJson) = some b
  induction b with
  | nil => rfl
  | cons it rest ih =>
    simp only [List.map_cons, jsonListToBatch, jsonToNewsItem_newsItemToJson, ih]

/-- A serialised batch is never mistaken for an error value by the
`"error" in news_data` test: its elements are objects, not strings. -/
theorem hasErrorKey_batchToJson (b : List NewsItem) :
    hasErrorKey (batchToJson b) = false := by
  show (b.map newsItemToJson).any isErrorString = false
  rw [List.any_eq_false]
  intro j hj
  obtain ⟨x, _, rfl⟩ := List.mem_map.mp hj
  simp [newsItemToJson, isErrorString]

/-- Claim C4: a cache read for the same news category after a successful
write, performed before the TTL elapses, returns exactly the serialised
batch that was written — whatever fetchers the second call is given, they
are not invoked (`fetched = false`) — and deserialising it yields the
written batch back (the round-trip is the identity). -/
theorem cache_read_after_write (t0 t1 : Int) (r0ok w1ok : Bool) (store : Store)
    (b : List NewsItem) (ty : String) (nf1 gf1 : Unit → Json)
    (hty : ty = "naver" ∨ ty = "google")
    (hmiss : store.lookup ("latest_news_" ++ ty) = none)
    (hfresh : t1 < t0 + CACHE_TTL_SECONDS) :
    fetchAndCacheNews ⟨t1, true, w1ok⟩
        (fetchAndCacheNews ⟨t0, r0ok, true⟩ store ty
          (fun _ => batchToJson b) (fun _ => batchToJson b)).store ty nf1 gf1
      = ⟨batchToJson b,
         (fetchAndCacheNews ⟨t0, r0ok, true⟩ store ty
           (fun _ => batchToJson b) (fun _ => batchToJson b)).store, false⟩ ∧
    jsonToBatch (batchToJson b) = some b := by
  have hread0 : readCachedValue ⟨t0, r0ok, true⟩ store ("latest_news_" ++ ty) = none := by
    unfold readCachedValue
    cases r0ok
    · rfl
    · simp [hmiss]
  have hw : fetchAndCacheNews ⟨t0, r0ok, true⟩ store ty
      (fun _ => batchToJson b) (fun _ => batchToJson b)
      = ⟨batchToJson b,
         ("latest_news_" ++ ty, ⟨batchToJson b, t0 + CACHE_TTL_SECONDS⟩) :: store, true⟩ := by
    simp only [fetchAndCacheNews]
    rw [hread0]
    rcases hty with h | h <;>
      simp [h, storeFetched, hasErrorKey_batchToJson]
  rw [hw]
  refine ⟨?_, jsonToBatch_batchToJson b⟩
  simp only [fetchAndCacheNews, readCachedValue, List.lookup_cons_self, if_true]
  rw [if_pos hfresh]

/-- Witness for claim C4 at a concrete batch and timestamps. -/
theorem cache_read_after_write_witness :
    fetchAndCacheNews ⟨10, true, true⟩
        (fetchAndCacheNews ⟨0, true, true⟩ [] "naver"
          (fun _ => batchToJson [⟨1, "t", "https://n/article/1/2"⟩])
          (fun _ => batchToJson [⟨1, "t", "https://n/article/1/2"⟩])).store "naver"
        (fun _ => Json.jnum 0) (fun _ => Json.jnum 0)
      = ⟨batchToJson [⟨1, "t", "https://n/article/1/2"⟩],
         (fetchAndCacheNews ⟨0, true, true⟩ [] "naver"
           (fun _ => batchToJson [⟨1, "t", "https://n/article/1/2"⟩])
           (fun _ => batchToJson [⟨1, "t", "https://n/article/1/2"⟩])).store, false⟩ ∧
    jsonToBatch (batchToJson [⟨1, "t", "https://n/article/1/2"⟩])
      = some [⟨1, "t", "https://n/article/1/2"⟩] :=
  cache_read_after_write 0 10 true true [] [⟨1, "t", "https://n/article/1/2"⟩] "naver"
    (fun _ => Json.jnum 0) (fun _ => Json.jnum 0) (Or.inl rfl) rfl (by decide)

/-- Claim C5: on a cache miss (no readable, unexpired record), a fetch that
returns an error value is returned as is and nothing is written; a fetch
that succeeds is written as a record expiring at `now + 3600` seconds and
the fresh batch is returned. -/
theorem cache_miss_error_and_success (env : Env) (store : Store) (ty : String)
    (nf gf : Unit → Json) (v : Json)
    (hv : (ty = "naver" ∧ v = nf ()) ∨ (ty = "google" ∧ v = gf ()))
    (hmiss : readCachedValue env store ("latest_news_" ++ ty) = none) :
    (hasErrorKey v = true →
      fetchAndCacheNews env store ty nf gf = ⟨v, store, true⟩) ∧
    (hasErrorKey v = false → env.writeOk = true →
      fetchAndCacheNews env store ty nf gf
        = ⟨v, ("latest_news_" ++ ty, ⟨v, env.now + CACHE_TTL_SECONDS⟩) :: store, true⟩) := by
  have hbody : fetchAndCacheNews env store ty nf gf
      = storeFetched env store ("latest_news_" ++ ty) v := by
    simp only [fetchAndCacheNews]
    rw [hmiss]
    rcases hv with ⟨h, hval⟩ | ⟨h, hval⟩ <;> simp [h, hval]
  constructor
  · intro herr
    rw [hbody]
    unfold storeFetched
    rw [if_pos herr]
  · intro herr hw
    rw [hbody]
    unfold storeFetched
    rw [if_neg (by simp [herr]), hw]
    simp

/-- Witness for claim C5: the error half at a failing fetch, the success
half at a succeeding fetch. -/
theorem cache_miss_error_and_success_witness :
    (fetchAndCacheNews ⟨0, true, true⟩ [] "naver"
        (fun _ => Json.jobj [("error", Json.jstr "네이버 API 요청 시간 초과.")])
        (fun _ => Json.jnum 0)
      = ⟨Json.jobj [("error", Json.jstr "네이버 API 요청 시간 초과.")], [], true⟩) ∧
    (fetchAndCacheNews ⟨0, true, true⟩ [] "google"
        (fun _ => Json.jnum 0) (fun _ => batchToJson [⟨1, "g", "https://g/1"⟩])
      = ⟨batchToJson [⟨1, "g", "https://g/1"⟩],
         [("latest_news_" ++ "google",
           ⟨batchToJson [⟨1, "g", "https://g/1"⟩], 0 + CACHE_TTL_SECONDS⟩)], true⟩) :=
  ⟨(cache_miss_error_and_success ⟨0, true, true⟩ [] "naver"
      (fun _ => Json.jobj [("error", Json.jstr "네이버 API 요청 시간 초과.")])
      (fun _ => Json.jnum 0) (Json.jobj [("error", Json.jstr "네이버 API 요청 시간 초과.")])
      (Or.inl ⟨rfl, rfl⟩) rfl).1 rfl,
   (cache_miss_error_and_success ⟨0, true, true⟩ [] "google"
      (fun _ => Json.jnum 0) (fun _ => batchToJson [⟨1, "g", "https://g/1"⟩])
      (batchToJson [⟨1, "g", "https://g/1"⟩])
      (Or.inr ⟨rfl, rfl⟩) rfl).2 (hasErrorKey_batchToJson _) rfl⟩

/-- Claim C6: a store exception while reading is treated as a cache miss —
the provider fetch proceeds and completes the request — and a store
exception while writing is swallowed: the freshly fetched batch is still
returned and the store is left unchanged.  Both calls return normally, so
store errors never propagate. -/
theorem cache_store_errors_nonfatal (now : Int) (store store2 : Store)
    (nf gf : Unit → Json)
    (hok : hasErrorKey (nf ()) = false)
    (hmiss2 : readCachedValue ⟨now, true, false⟩ store2 ("latest_news_" ++ "naver") = none) :
    fetchAndCacheNews ⟨now, false, true⟩ store "naver" nf gf
      = ⟨nf (), ("latest_news_" ++ "naver", ⟨nf (), now + CACHE_TTL_SECONDS⟩) :: store, true⟩ ∧
    fetchAndCacheNews ⟨now, true, false⟩ store2 "naver" nf gf = ⟨nf (), store2, true⟩ := by
  constructor
  · have hread : readCachedValue ⟨now, false, true⟩ store ("latest_news_" ++ "naver")
        = none := rfl
    have hbody : fetchAndCacheNews ⟨now, false, true⟩ store "naver" nf gf
        = storeFetched ⟨now, false, true⟩ store ("latest_news_" ++ "naver") (nf ()) := by
      simp only [fetchAndCacheNews]
      rw [hread]
      simp
    rw [hbody]
    unfold storeFetched
    rw [if_neg (by simp [hok])]
    simp
  · have hbody : fetchAndCacheNews ⟨now, true, false⟩ store2 "naver" nf gf
        = storeFetched ⟨now, true, false⟩ store2 ("latest_news_" ++ "naver") (nf ()) := by
      simp only [fetchAndCacheNews]
      rw [hmiss2]
      simp
    rw [hbody]
    unfold storeFetched
    rw [if_neg (by simp [hok])]
    simp

/-- Witness for claim C6: the read-failure call even finds a live record it
cannot read; the write-failure call starts from an empty store. -/
theorem cache_store_errors_nonfatal_witness :
    fetchAndCacheNews ⟨0, false, true⟩
        [("latest_news_" ++ "naver", ⟨Json.jnum 7, 99⟩)] "naver"
        (fun _ => batchToJson [⟨1, "n", "https://n/article/1/2"⟩]) (fun _ => Json.jnum 0)
      = ⟨batchToJson [⟨1, "n", "https://n/article/1/2"⟩],
         ("latest_news_" ++ "naver", ⟨batchToJson [⟨1, "n", "https://n/article/1/2"⟩],
           0 + CACHE_TTL_SECONDS⟩) :: [("latest_news_" ++ "naver", ⟨Json.jnum 7, 99⟩)], true⟩ ∧
    fetchAndCacheNews ⟨0, true, false⟩ [] "naver"
        (fun _ => batchToJson [⟨1, "n", "https://n/article/1/2"⟩]) (fun _ => Json.jnum 0)
      = ⟨batchToJson [⟨1, "n", "https://n/article/1/2"⟩], [], true⟩ :=
  cache_store_errors_nonfatal 0 [("latest_news_" ++ "naver", ⟨Json.jnum 7, 99⟩)] []
    (fun _ => batchToJson [⟨1, "n", "https://n/article/1/2"⟩]) (fun _ => Json.jnum 0)
    (hasErrorKey_batchToJson _) rfl

/-! ## Handler claims -/

theorem hasErrorKey_of_isErrorValue {j : Json} (h : isErrorValue j = true) :
    hasErrorKey j = true := by
  cases j <;> simp_all [isErrorValue, hasErrorKey]

theorem hasErrorKey_of_isNewsArray {j : Json} (h : isNewsArray j = true) :
    hasErrorKey j = false := by
  cases j with
  | jarr es =>
    simp only [isNewsArray, List.all_eq_true] at h
    simp only [hasErrorKey, List.any_eq_false]
    intro x hx
    have := h x hx
    cases x <;> simp_all [isErrorString]
  | jnum n => rfl
  | jstr s => exact absurd h (by simp [isNewsArray])
  | jobj fields => exact absurd h (by simp [isNewsArray])

theorem isErrorValue_of_isNewsArray {j : Json} (h : isNewsArray j = true) :
    isErrorValue j = false := by
  cases j <;> simp_all [isNewsArray, isErrorValue]

/-- Claim C9: `GET /api/news` answers 500 exactly when one of the two
fetch-and-cache results is an error value, 200 otherwise, and the body
always carries both the `korean_news` and `global_news` fields. -/
theorem get_all_news_status (k g : Json)
    (hk : isErrorValue k = true ∨ isNewsArray k = true)
    (hg : isErrorValue g = true ∨ isNewsArray g = true) :
    ((getAllNews k g).status = 500 ↔ (isErrorValue k = true ∨ isErrorValue g = true)) ∧
    (getAllNews k g).body = Json.jobj [("korean_news", k), ("global_news", g)] := by
  refine ⟨?_, rfl⟩
  unfold getAllNews
  rcases hk with hk | hk <;> rcases hg with hg | hg
  · simp [hasErrorKey_of_isErrorValue hk, hasErrorKey_of_isErrorValue hg, hk]
  · simp [hasErrorKey_of_isErrorValue hk, hk]
  · simp [hasErrorKey_of_isErrorValue hg, hg]
  · simp [hasErrorKey_of_isNewsArray hk, hasErrorKey_of_isNewsArray hg,
      isErrorValue_of_isNewsArray hk, isErrorValue_of_isNewsArray hg]

/-- Witness for claim C9: one failing side yields 500 with both fields. -/
theorem get_all_news_status_witness :
    ((getAllNews (Json.jobj [("error", Json.jstr "네이버 API 요청 시간 초과.")])
        (batchToJson [⟨1, "g", "https://g/1"⟩])).status = 500 ↔
      (isErrorValue (Json.jobj [("error", Json.jstr "네이버 API 요청 시간 초과.")]) = true ∨
       isErrorValue (batchToJson [⟨1, "g", "https://g/1"⟩]) = true)) ∧
    (getAllNews (Json.jobj [("error", Json.jstr "네이버 API 요청 시간 초과.")])
        (batchToJson [⟨1, "g", "https://g/1"⟩])).body
      = Json.jobj [("korean_news", Json.jobj [("error", Json.jstr "네이버 API 요청 시간 초과.")]),
                   ("global_news", batchToJson [⟨1, "g", "https://g/1"⟩])] :=
  get_all_news_status (Json.jobj [("error", Json.jstr "네이버 API 요청 시간 초과.")])
    (batchToJson [⟨1, "g", "https://g/1"⟩]) (Or.inl rfl)
    (Or.inr (by simp [isNewsArray, batchToJson, newsItemToJson]))

/-- Claim C7: a `POST /api/chat` request whose `message` field is absent or
empty is answered with 400 and the generative backend is never called,
whether or not a backend is configured. -/
theorem chat_empty_message_400 (body : List (String × Json)) (gem : GeminiModel)
    (h : body.lookup "message" = none ∨ body.lookup "message" = some (Json.jstr "")) :
    (chatWithGemini body gem).1.status = 400 ∧ (chatWithGemini body gem).2 = false := by
  rcases h with h | h <;> simp [chatWithGemini, h, jsonFalsy] <;> exact ⟨rfl, rfl⟩

/-- Witness for claim C7: an empty body with a configured backend. -/
theorem chat_empty_message_400_witness :
    (chatWithGemini [] (some (fun _ => GenOutcome.text "hi"))).1.status = 400 ∧
    (chatWithGemini [] (some (fun _ => GenOutcome.text "hi"))).2 = false :=
  chat_empty_message_400 [] (some (fun _ => GenOutcome.text "hi")) (Or.inl rfl)

/-- Claim C10: in both summarize endpoints the empty-batch check precedes
the backend-configuration check: an empty fetched batch with no configured
backend is answered 200 with the fixed nothing-to-summarize message, not
503. -/
theorem summarize_empty_before_backend_check :
    summarizeNaverNews (Json.jarr []) none
      = ⟨Json.jobj [("summary", Json.jstr "요약할 국내 IT 뉴스가 없습니다. 😿")], 200⟩ ∧
    summarizeGoogleNews (Json.jarr []) none
      = ⟨Json.jobj [("summary", Json.jstr "요약할 글로벌 IT 뉴스가 없습니다. 😿")], 200⟩ :=
  ⟨rfl, rfl⟩

/-! ## Claim C8: the fallback dedup key -/

/-- The fallback key as claim C8 words it: the link with everything from
the first question mark removed and trailing slash characters removed —
leading slashes kept. -/
def claimC8Key (link : String) : String :=
  String.mk (((beforeQuery link).reverse.dropWhile (fun c => c == '/')).reverse)

/-- Claim C8 counterexample: for the identifier-less link `"/a"` the
fetcher's key strips the leading slash as well, so it differs from the
claimed key; behaviourally, two entries whose claimed keys differ still
collapse to one item because the key actually used coincides. -/
theorem naver_fallback_key_cex :
    articleIdOf "/a" = none ∧ articleIdOf "a" = none ∧
    naverKey "/a" ≠ claimC8Key "/a" ∧
    claimC8Key "/a" ≠ claimC8Key "a" ∧
    fetchNaverNews [⟨"t", "/a"⟩, ⟨"u", "a"⟩] = [⟨1, "t", "/a"⟩] := by
  refine ⟨rfl, rfl, by decide, by decide, by decide⟩

theorem dropLeadingSlash_eq_dropWhile (l : List Char) :
    dropLeadingSlash l = l.dropWhile (fun c => c == '/') := by
  induction l with
  | nil => rfl
  | cons c cs ih =>
    by_cases hc : c = '/'
    · simp [dropLeadingSlash, List.dropWhile, hc, ih]
    · have hb : (c == '/') = false := by simpa using hc
      simp [dropLeadingSlash, List.dropWhile, hc, hb]

/-- Claim C8 (amended): for an identifier-less link the dedup key used is
the link with its query string stripped and with slash characters stripped
from both ends, leading as well as trailing. -/
theorem naver_fallback_key_amended (link : String) (h : articleIdOf link = none) :
    naverKey link =
      String.mk ((((beforeQuery link).dropWhile (fun c => c == '/')).reverse.dropWhile
        (fun c => c == '/')).reverse) := by
  unfold naverKey
  rw [h]
  unfold stripSlashes
  rw [dropLeadingSlash_eq_dropWhile, dropLeadingSlash_eq_dropWhile]

/-- Witness for the amended claim C8 at a concrete identifier-less link. -/
theorem naver_fallback_key_amended_witness :
    naverKey "/news/it/story/?utm=1" =
      String.mk ((((beforeQuery "/news/it/story/?utm=1").dropWhile
        (fun c => c == '/')).reverse.dropWhile (fun c => c == '/')).reverse) :=
  naver_fallback_key_amended "/news/it/story/?utm=1" (by decide)
